import Mathlib

/-!
Verification of the SharePoint RAG chatbot shell (`src/app.py`).

The shell holds Streamlit session state (message history, document list,
connection flag, credentials, index handle, chat engine handle) and wires
two user actions to it: the connect action (`initialize_sharepoint`) and
the chat turn (the `st.chat_input` handler).  The three collaborators
(`SharePointConnector`, `DocumentIndexer`, `ChatEngine`) live in
`utils/` modules that are not part of the shown source; their behaviour
is passed in as `Except`-valued parameters, and where a claim needs their
internals they are modelled from the specification and marked as such.
-/

/-- Modelled from the spec: the Document record produced by the Connector
(`utils/sharepoint.py` is absent from the source): identifier, display
name, textual content, source location. `app.py` accesses `doc['name']`. -/
structure Doc where
  id : String
  name : String
  content : String
  location : String
deriving DecidableEq, Repr

/-- Modelled from the spec: the opaque Index built by `DocumentIndexer`
(`utils/indexer.py` is absent from the source).  It is built wholesale
from the full Document sequence; we record its source set of documents. -/
structure Index where
  docs : List Doc
deriving DecidableEq, Repr

/-- Modelled from the spec: the `DocumentIndexer.index_documents` call
(`utils/indexer.py` is absent): consumes the document sequence and
produces an Index whose source set is exactly that sequence. -/
def DocumentIndexer.index_documents (docs : List Doc) : Index :=
  ⟨docs⟩

/-- Modelled from the spec: the `ChatEngine` object constructed from an
Index (`utils/chat_engine.py` is absent from the source). -/
structure ChatEngine where
  index : Index
deriving DecidableEq, Repr

/-- A chat message as stored in `st.session_state.messages`: a dict with
`role` and `content` keys and an optional `sources` key (`none` models a
dict without the key, as in the user-message append at `app.py:132`). -/
structure Message where
  role : String
  content : String
  sources : Option (List String) := none
deriving DecidableEq, Repr

/-- The Streamlit session state used by `app.py`: `messages`, `documents`
and `connected` are initialised at the top of the script; `index`,
`chat_engine` and the four credential keys are only ever set by the
connect action and the credentials form, so they are `Option`s. -/
structure SessionState where
  messages : List Message
  documents : List Doc
  connected : Bool
  index : Option Index
  chatEngine : Option ChatEngine
  sharepoint_url : Option String
  site_name : Option String
  username : Option String
  password : Option String
deriving DecidableEq, Repr

/-- The session state right after the `if 'messages' not in st.session_state`
initialisation block (`app.py:20-26`). -/
def initialState : SessionState :=
  { messages := [], documents := [], connected := false,
    index := none, chatEngine := none,
    sharepoint_url := none, site_name := none,
    username := none, password := none }

/-- `initialize_sharepoint` (`app.py:28-61`).  The five externally
effectful steps of the `try` body are passed in as `Except`-valued
parameters, in source order: `SharePointConnector(...)` construction,
`connector.get_all_documents()`, `DocumentIndexer()` construction,
`indexer.index_documents(documents)`, and `ChatEngine(index)`
construction.  Session-state assignments happen exactly where the source
performs them, so a later failure keeps the earlier assignments; the
`except` clause sets `connected = False` and leaves everything else as
it stands. -/
def initialize_sharepoint
    (mkConnector : Except String Unit)
    (get_all_documents : Except String (List Doc))
    (mkIndexer : Except String Unit)
    (index_documents : List Doc → Except String Index)
    (mkChatEngine : Index → Except String ChatEngine)
    (s : SessionState) : SessionState :=
  match mkConnector with
  | .error _ => { s with connected := false }
  | .ok () =>
  match get_all_documents with
  | .error _ => { s with connected := false }
  | .ok documents =>
  let s := { s with documents := documents }
  match mkIndexer with
  | .error _ => { s with connected := false }
  | .ok () =>
  match index_documents documents with
  | .error _ => { s with connected := false }
  | .ok index =>
  let s := { s with index := some index }
  match mkChatEngine index with
  | .error _ => { s with connected := false }
  | .ok engine =>
  { s with chatEngine := some engine, connected := true }

/-- The user message appended at `app.py:132`: a dict with only `role`
and `content` keys. -/
def userMessage (prompt : String) : Message :=
  { role := "user", content := prompt }

/-- The assistant message appended at `app.py:156-160`: `role`,
`content` and a `sources` key. -/
def assistantMessage (response : String) (sources : List String) : Message :=
  { role := "assistant", content := response, sources := some sources }

/-- The body of the chat-input handler (`app.py:131-163`), instrumented:
the second component records whether `chat_engine.get_response` was
called.  The user message is appended first (`app.py:132`); then the
handler checks `st.session_state.connected` (`app.py:138`) and only in
the connected branch calls `get_response` with the prompt and the
current (already-extended) message list (`app.py:143-146`); on success
it appends the assistant message, and the `except` clause appends
nothing. -/
def chat_handler_core
    (get_response : String → List Message → Except String (String × List String))
    (prompt : String) (s : SessionState) : SessionState × Bool :=
  let s1 := { s with messages := s.messages ++ [userMessage prompt] }
  if s1.connected = false then
    (s1, false)
  else
    match get_response prompt s1.messages with
    | .error _ => (s1, true)
    | .ok (response, sources) =>
      ({ s1 with
          messages := s1.messages ++ [assistantMessage response sources] },
       true)

/-- The chat-input handler's effect on session state. -/
def chat_handler
    (get_response : String → List Message → Except String (String × List String))
    (prompt : String) (s : SessionState) : SessionState :=
  (chat_handler_core get_response prompt s).1

/-- One main-area script step around `st.chat_input` (`app.py:127-163`).
`input` is what `st.chat_input` returns; the widget is rendered with
`disabled=not st.session_state.connected` (`app.py:129`), so while
disconnected it accepts no submission and returns `None`; the walrus
`if prompt := ...` also drops a falsy (empty) string.  The `Bool`
component records whether the Chat Engine was called. -/
def chat_step
    (get_response : String → List Message → Except String (String × List String))
    (input : Option String) (s : SessionState) : SessionState × Bool :=
  match input with
  | none => (s, false)
  | some prompt =>
    if s.connected = false then (s, false)
    else if prompt = "" then (s, false)
    else chat_handler_core get_response prompt s

/-- One credential-field store (`app.py:94-101`): `if value:
st.session_state.key = value` — a non-empty (truthy) form value
overwrites the stored one, an empty value leaves it alone. -/
def store_credential (stored : Option String) (formVal : String) : Option String :=
  if formVal = "" then stored else some formVal

/-- The credentials-form body (`app.py:94-101`) applied to all four
fields. -/
def submit_credentials_form
    (url siteName user pass : String) (s : SessionState) : SessionState :=
  { s with
      sharepoint_url := store_credential s.sharepoint_url url,
      site_name := store_credential s.site_name siteName,
      username := store_credential s.username user,
      password := store_credential s.password pass }

/-- The message-rendering loop (`app.py:118-124`) reads
`st.session_state.messages` and mutates nothing; its input is exactly
the stored history. -/
def display_messages (s : SessionState) : List Message :=
  s.messages

/-- Modelled from the spec: `ChatEngine.get_response`
(`utils/chat_engine.py` is absent from the source).  It consults the
Index for passages relevant to the query — `relevant` stands for the
similarity-based retrieval whose algorithm is left to the underlying
library — and produces the answer text together with the list of source
identifiers drawn from the retrieved passages' originating Documents;
a provider failure in the generation step raises a `GenerationError`. -/
def ChatEngine.get_response (e : ChatEngine)
    (relevant : String → Doc → Bool)
    (generate : String → List Doc → List Message → Except String String)
    (query : String) (history : List Message) :
    Except String (String × List String) :=
  let passages := e.index.docs.filter (relevant query)
  match generate query passages history with
  | .error err => .error err
  | .ok answer => .ok (answer, passages.map Doc.id)

/-- A concrete document used to instantiate the theorems. -/
def sampleDoc : Doc :=
  { id := "d1", name := "Doc One", content := "vacation policy", location := "sp://d1" }

/-- A concrete session state as it stands after a successful connect
with a one-document site. -/
def connectedSample : SessionState :=
  { initialState with
      connected := true,
      documents := [sampleDoc],
      index := some ⟨[sampleDoc]⟩,
      chatEngine := some ⟨⟨[sampleDoc]⟩⟩ }

/-- A chat-engine behaviour that raises on every call (provider
failure). -/
def failingEngine : String → List Message → Except String (String × List String) :=
  fun _ _ => .error "GenerationError: rate limit"

/-- A chat-engine behaviour that succeeds on every call. -/
def okEngine : String → List Message → Except String (String × List String) :=
  fun _ _ => .ok ("answer", ["d1"])

/-- A concrete retrieval predicate for instantiating the modelled chat
engine. -/
def sampleRelevant : String → Doc → Bool :=
  fun _ _ => true

/-- A concrete generation step for instantiating the modelled chat
engine. -/
def sampleGenerate : String → List Doc → List Message → Except String String :=
  fun _ _ _ => .ok "the vacation policy is two weeks"

/-- A concrete session state with stored credentials, for the
credentials-form theorems. -/
def credSample : SessionState :=
  { initialState with
      sharepoint_url := some "https://old.sharepoint.com",
      site_name := some "oldsite",
      username := some "olduser",
      password := some "oldpw" }

/-- Shared shape lemma: a chat turn whose engine call succeeds extends
the history by exactly the user message then the assistant message. -/
theorem chat_handler_core_ok
    (get_response : String → List Message → Except String (String × List String))
    (prompt response : String) (sources : List String) (s : SessionState)
    (hc : s.connected = true)
    (hok : get_response prompt (s.messages ++ [userMessage prompt])
      = .ok (response, sources)) :
    chat_handler_core get_response prompt s
      = ({ s with messages :=
            s.messages ++ [userMessage prompt, assistantMessage response sources] },
         true) := by
  unfold chat_handler_core
  simp [hc, hok]

/-- Shared shape lemma: a chat turn whose engine call raises extends the
history by exactly the user message. -/
theorem chat_handler_core_error
    (get_response : String → List Message → Except String (String × List String))
    (prompt err : String) (s : SessionState)
    (hc : s.connected = true)
    (herr : get_response prompt (s.messages ++ [userMessage prompt]) = .error err) :
    chat_handler_core get_response prompt s
      = ({ s with messages := s.messages ++ [userMessage prompt] }, true) := by
  unfold chat_handler_core
  simp [hc, herr]

/-- Shared frame lemma: `initialize_sharepoint` never touches the
message history. -/
theorem initialize_sharepoint_messages
    (mkConnector : Except String Unit)
    (get_all_documents : Except String (List Doc))
    (mkIndexer : Except String Unit)
    (index_documents : List Doc → Except String Index)
    (mkChatEngine : Index → Except String ChatEngine)
    (s : SessionState) :
    (initialize_sharepoint mkConnector get_all_documents mkIndexer
      index_documents mkChatEngine s).messages = s.messages := by
  unfold initialize_sharepoint
  repeat' split
  all_goals rfl

/-- C1 counterexample: the claim "a failed turn appends zero messages"
is false on the code.  In the connected one-document state with empty
history, a turn whose engine call raises still changes the history:
`app.py:132` appends the user message before the `try` block. -/
theorem C1_counterexample :
    (chat_handler failingEngine "hi" connectedSample).messages
      ≠ connectedSample.messages := by
  decide

/-- C1 (amended): for every chat turn in which the chat engine call
raises an exception, the message history after the turn equals the
history before the turn extended by exactly one message — the user
message carrying the query; the assistant message is not appended. -/
theorem C1_failed_turn_appends_only_user
    (get_response : String → List Message → Except String (String × List String))
    (prompt err : String) (s : SessionState)
    (hc : s.connected = true)
    (herr : get_response prompt (s.messages ++ [userMessage prompt]) = .error err) :
    (chat_handler get_response prompt s).messages
      = s.messages ++ [userMessage prompt] := by
  unfold chat_handler
  rw [chat_handler_core_error get_response prompt err s hc herr]

/-- C1 witness: the amended statement at a concrete failing turn. -/
theorem C1_failed_turn_appends_only_user_witness :
    (chat_handler failingEngine "hi" connectedSample).messages
      = connectedSample.messages ++ [userMessage "hi"] :=
  C1_failed_turn_appends_only_user failingEngine "hi"
    "GenerationError: rate limit" connectedSample rfl rfl

/-- C2 counterexample: the claim "a failed connect leaves documents
unchanged" is false on the code.  With empty stored documents, a connect
in which the fetch succeeds with one document and the indexing phase
raises leaves `connected = false` but replaces the documents list:
`app.py:42` stores the fetched documents before indexing runs. -/
theorem C2_counterexample :
    (initialize_sharepoint (.ok ()) (.ok [sampleDoc]) (.ok ())
        (fun _ => Except.error "IndexingError") (fun _ => Except.error "unreachable")
        initialState).connected = false ∧
      (initialize_sharepoint (.ok ()) (.ok [sampleDoc]) (.ok ())
        (fun _ => Except.error "IndexingError") (fun _ => Except.error "unreachable")
        initialState).documents ≠ initialState.documents := by
  constructor
  · rfl
  · decide

/-- C2 (amended): for every connect attempt in which construction,
fetch, indexer construction or indexing raises, the attempt leaves the
message history, the index, and the chat engine unchanged and sets
`connected = false`; the documents list is either unchanged or equal to
the fetched list (it is replaced as soon as the fetch succeeds, even if
a later phase fails). -/
theorem C2_failed_connect_frame
    (mkConnector : Except String Unit)
    (get_all_documents : Except String (List Doc))
    (mkIndexer : Except String Unit)
    (index_documents : List Doc → Except String Index)
    (mkChatEngine : Index → Except String ChatEngine)
    (s : SessionState)
    (hfail : (∃ e, mkConnector = .error e) ∨ (∃ e, get_all_documents = .error e) ∨
      (∃ e, mkIndexer = .error e) ∨
      (∃ ds e, get_all_documents = .ok ds ∧ index_documents ds = .error e)) :
    (initialize_sharepoint mkConnector get_all_documents mkIndexer
        index_documents mkChatEngine s).messages = s.messages ∧
    (initialize_sharepoint mkConnector get_all_documents mkIndexer
        index_documents mkChatEngine s).index = s.index ∧
    (initialize_sharepoint mkConnector get_all_documents mkIndexer
        index_documents mkChatEngine s).chatEngine = s.chatEngine ∧
    (initialize_sharepoint mkConnector get_all_documents mkIndexer
        index_documents mkChatEngine s).connected = false ∧
    ((initialize_sharepoint mkConnector get_all_documents mkIndexer
        index_documents mkChatEngine s).documents = s.documents ∨
      ∃ ds, get_all_documents = .ok ds ∧
        (initialize_sharepoint mkConnector get_all_documents mkIndexer
          index_documents mkChatEngine s).documents = ds) := by
  unfold initialize_sharepoint
  cases mkConnector with
  | error e1 => simp
  | ok u =>
    cases u
    cases get_all_documents with
    | error e2 => simp
    | ok ds =>
      cases mkIndexer with
      | error e3 =>
        refine ⟨rfl, rfl, rfl, rfl, Or.inr ⟨ds, rfl, ?_⟩⟩
        rfl
      | ok u2 =>
        cases u2
        cases hix : index_documents ds with
        | error e4 =>
          refine ⟨?_, ?_, ?_, ?_, Or.inr ⟨ds, rfl, ?_⟩⟩ <;> simp [hix]
        | ok idx =>
          exfalso
          rcases hfail with ⟨e, he⟩ | ⟨e, he⟩ | ⟨e, he⟩ | ⟨ds2, e, hds2, he⟩
          · exact Except.noConfusion he
          · exact Except.noConfusion he
          · exact Except.noConfusion he
          · injection hds2 with h
            subst h
            rw [hix] at he
            exact Except.noConfusion he

/-- C2 witness: the amended statement at a concrete attempt whose
indexing phase raises. -/
theorem C2_failed_connect_frame_witness :
    (initialize_sharepoint (.ok ()) (.ok [sampleDoc]) (.ok ())
        (fun _ => Except.error "IndexingError") (fun _ => Except.error "unreachable")
        initialState).messages = initialState.messages ∧
    (initialize_sharepoint (.ok ()) (.ok [sampleDoc]) (.ok ())
        (fun _ => Except.error "IndexingError") (fun _ => Except.error "unreachable")
        initialState).index = initialState.index ∧
    (initialize_sharepoint (.ok ()) (.ok [sampleDoc]) (.ok ())
        (fun _ => Except.error "IndexingError") (fun _ => Except.error "unreachable")
        initialState).chatEngine = initialState.chatEngine ∧
    (initialize_sharepoint (.ok ()) (.ok [sampleDoc]) (.ok ())
        (fun _ => Except.error "IndexingError") (fun _ => Except.error "unreachable")
        initialState).connected = false ∧
    ((initialize_sharepoint (.ok ()) (.ok [sampleDoc]) (.ok ())
        (fun _ => Except.error "IndexingError") (fun _ => Except.error "unreachable")
        initialState).documents = initialState.documents ∨
      ∃ ds, (Except.ok [sampleDoc] : Except String (List Doc)) = .ok ds ∧
        (initialize_sharepoint (.ok ()) (.ok [sampleDoc]) (.ok ())
          (fun _ => Except.error "IndexingError") (fun _ => Except.error "unreachable")
          initialState).documents = ds) :=
  C2_failed_connect_frame (.ok ()) (.ok [sampleDoc]) (.ok ())
    (fun _ => Except.error "IndexingError") (fun _ => Except.error "unreachable")
    initialState
    (Or.inr (Or.inr (Or.inr ⟨[sampleDoc], "IndexingError", rfl, rfl⟩)))

/-- C3: while the session is disconnected no Chat Engine call occurs and
the session state is untouched: the chat input is gated on connection
status (`disabled=not st.session_state.connected`, `app.py:129`), and
even the handler body itself checks `connected` (`app.py:138`) before
calling the engine. -/
theorem C3_disconnected_no_engine_call
    (get_response : String → List Message → Except String (String × List String))
    (input : Option String) (prompt : String) (s : SessionState)
    (hd : s.connected = false) :
    (chat_step get_response input s).2 = false ∧
      (chat_step get_response input s).1 = s ∧
      (chat_handler_core get_response prompt s).2 = false := by
  refine ⟨?_, ?_, ?_⟩
  · unfold chat_step
    cases input with
    | none => rfl
    | some p => simp [hd]
  · unfold chat_step
    cases input with
    | none => rfl
    | some p => simp [hd]
  · unfold chat_handler_core
    simp [hd]

/-- C3 witness: a concrete query submitted in the initial, disconnected
state triggers no engine call. -/
theorem C3_disconnected_no_engine_call_witness :
    (chat_step okEngine (some "hi") initialState).2 = false ∧
      (chat_step okEngine (some "hi") initialState).1 = initialState ∧
      (chat_handler_core okEngine "hi" initialState).2 = false :=
  C3_disconnected_no_engine_call okEngine (some "hi") "hi" initialState rfl

/-- C4: a chat turn whose engine call returns successfully appends
exactly two messages, in order: the user message with the query, then
the assistant message with the response (`app.py:132` and
`app.py:156-160`). -/
theorem C4_success_appends_two
    (get_response : String → List Message → Except String (String × List String))
    (prompt response : String) (sources : List String) (s : SessionState)
    (hc : s.connected = true)
    (hok : get_response prompt (s.messages ++ [userMessage prompt])
      = .ok (response, sources)) :
    (chat_handler get_response prompt s).messages
      = s.messages ++ [userMessage prompt, assistantMessage response sources] := by
  unfold chat_handler
  rw [chat_handler_core_ok get_response prompt response sources s hc hok]

/-- C4 witness: the statement at a concrete successful turn. -/
theorem C4_success_appends_two_witness :
    (chat_handler okEngine "hi" connectedSample).messages
      = connectedSample.messages ++ [userMessage "hi", assistantMessage "answer" ["d1"]] :=
  C4_success_appends_two okEngine "hi" "answer" ["d1"] connectedSample rfl rfl

/-- C5: a connect attempt in which the document fetch raises (invalid
credentials) leaves `connected = false` and the stored documents list
unchanged, whatever the other phases would have done
(`app.py:40-42` and the `except` clause at `app.py:59-61`). -/
theorem C5_fetch_failure
    (mkConnector : Except String Unit) (err : String)
    (mkIndexer : Except String Unit)
    (index_documents : List Doc → Except String Index)
    (mkChatEngine : Index → Except String ChatEngine)
    (s : SessionState) :
    (initialize_sharepoint mkConnector (.error err) mkIndexer
        index_documents mkChatEngine s).connected = false ∧
      (initialize_sharepoint mkConnector (.error err) mkIndexer
        index_documents mkChatEngine s).documents = s.documents := by
  unfold initialize_sharepoint
  cases mkConnector with
  | error e => exact ⟨rfl, rfl⟩
  | ok u => cases u; exact ⟨rfl, rfl⟩

/-- A concrete evaluation of a connect attempt whose fetch raises,
recorded as a sanity example inside the development. -/
theorem connect_fetch_failure_example :
    (initialize_sharepoint (.ok ()) (.error "AuthenticationError") (.ok ())
        (fun ds => .ok (DocumentIndexer.index_documents ds))
        (fun idx => .ok ⟨idx⟩) credSample).connected = false := by
  decide

/-- C6: a connect attempt in which every phase succeeds sets
`connected = true`, stores the fetched documents, and the number of
stored documents equals the number of documents in the index's source
set (`app.py:40-57`; the Indexer is modelled from the spec, its source
set being exactly the indexed document sequence). -/
theorem C6_success_connect (ds : List Doc) (s : SessionState) :
    (initialize_sharepoint (.ok ()) (.ok ds) (.ok ())
        (fun docs => .ok (DocumentIndexer.index_documents docs))
        (fun idx => .ok ⟨idx⟩) s).connected = true ∧
      (initialize_sharepoint (.ok ()) (.ok ds) (.ok ())
        (fun docs => .ok (DocumentIndexer.index_documents docs))
        (fun idx => .ok ⟨idx⟩) s).documents = ds ∧
      ∃ idx, (initialize_sharepoint (.ok ()) (.ok ds) (.ok ())
          (fun docs => .ok (DocumentIndexer.index_documents docs))
          (fun idx0 => .ok ⟨idx0⟩) s).index = some idx ∧
        (initialize_sharepoint (.ok ()) (.ok ds) (.ok ())
          (fun docs => .ok (DocumentIndexer.index_documents docs))
          (fun idx0 => .ok ⟨idx0⟩) s).documents.length = idx.docs.length :=
  ⟨rfl, rfl, DocumentIndexer.index_documents ds, rfl, rfl⟩

/-- C7: for every successful chat turn run against the modelled Chat
Engine, the handler appends the assistant message carrying exactly the
returned sources, and those sources are a subset of the identifiers of
the Documents present in the engine's Index: retrieval filters the
Index's own documents, so no source is fabricated. -/
theorem C7_sources_subset
    (e : ChatEngine) (relevant : String → Doc → Bool)
    (generate : String → List Doc → List Message → Except String String)
    (prompt response : String) (sources : List String) (s : SessionState)
    (hc : s.connected = true)
    (hok : ChatEngine.get_response e relevant generate prompt
        (s.messages ++ [userMessage prompt]) = .ok (response, sources)) :
    (chat_handler (ChatEngine.get_response e relevant generate) prompt s).messages
        = s.messages ++ [userMessage prompt, assistantMessage response sources] ∧
      ∀ x ∈ sources, x ∈ e.index.docs.map Doc.id := by
  constructor
  · unfold chat_handler
    rw [chat_handler_core_ok _ prompt response sources s hc hok]
  · simp only [ChatEngine.get_response] at hok
    cases hgen : generate prompt (e.index.docs.filter (relevant prompt))
        (s.messages ++ [userMessage prompt]) with
    | error err => simp [hgen] at hok
    | ok answer =>
      simp only [hgen] at hok
      simp only [Except.ok.injEq, Prod.mk.injEq] at hok
      obtain ⟨h1, h2⟩ := hok
      subst h2
      intro x hx
      rw [List.mem_map] at hx
      obtain ⟨d, hd, hdx⟩ := hx
      exact List.mem_map.mpr ⟨d, List.mem_of_mem_filter hd, hdx⟩

/-- C7 witness: the statement at a concrete successful turn of the
modelled engine over a one-document index. -/
theorem C7_sources_subset_witness :
    (chat_handler
        (ChatEngine.get_response ⟨⟨[sampleDoc]⟩⟩ sampleRelevant sampleGenerate)
        "hi" connectedSample).messages
        = connectedSample.messages ++ [userMessage "hi",
            assistantMessage "the vacation policy is two weeks" ["d1"]] ∧
      ∀ x ∈ ["d1"], x ∈ (⟨⟨[sampleDoc]⟩⟩ : ChatEngine).index.docs.map Doc.id :=
  C7_sources_subset ⟨⟨[sampleDoc]⟩⟩ sampleRelevant sampleGenerate "hi"
    "the vacation policy is two weeks" ["d1"] connectedSample rfl rfl

/-- Shared lemma: a chat turn only ever extends the history, whatever
the engine does. -/
theorem chat_handler_core_prefix
    (get_response : String → List Message → Except String (String × List String))
    (prompt : String) (s : SessionState) :
    s.messages <+: (chat_handler_core get_response prompt s).1.messages := by
  unfold chat_handler_core
  by_cases hc : s.connected = false
  · exact ⟨[userMessage prompt], by simp [hc]⟩
  · cases hres : get_response prompt (s.messages ++ [userMessage prompt]) with
    | error e => exact ⟨[userMessage prompt], by simp [hc, hres]⟩
    | ok r =>
      obtain ⟨resp, srcs⟩ := r
      exact ⟨[userMessage prompt, assistantMessage resp srcs], by simp [hc, hres]⟩

/-- C8: the message history is append-only: the connect action never
touches it, a chat step only ever extends it (the old history is a
prefix of the new one, so no existing message is removed or modified),
and the credentials form and the rendering loop leave it untouched. -/
theorem C8_messages_append_only
    (mkConnector : Except String Unit)
    (get_all_documents : Except String (List Doc))
    (mkIndexer : Except String Unit)
    (index_documents : List Doc → Except String Index)
    (mkChatEngine : Index → Except String ChatEngine)
    (get_response : String → List Message → Except String (String × List String))
    (input : Option String)
    (url siteName user pass : String) (s : SessionState) :
    s.messages <+: (initialize_sharepoint mkConnector get_all_documents mkIndexer
        index_documents mkChatEngine s).messages ∧
      s.messages <+: (chat_step get_response input s).1.messages ∧
      (submit_credentials_form url siteName user pass s).messages = s.messages ∧
      display_messages s = s.messages := by
  refine ⟨?_, ?_, rfl, rfl⟩
  · rw [initialize_sharepoint_messages]
  · cases input with
    | none => exact List.prefix_refl _
    | some p =>
      by_cases hc : s.connected = false
      · simp [chat_step, hc]
      · by_cases hp : p = ""
        · simp [chat_step, hc, hp]
        · simpa [chat_step, hc, hp] using chat_handler_core_prefix get_response p s

/-- C9: submitting the credentials form with an empty value for a field
leaves the stored session value for that field unchanged, and a
non-empty value overwrites it, independently for each of the four
fields (`app.py:94-101`, Python truthiness of strings). -/
theorem C9_credentials_form
    (url siteName user pass : String) (s : SessionState) :
    ((url = "" → (submit_credentials_form url siteName user pass s).sharepoint_url
        = s.sharepoint_url) ∧
      (url ≠ "" → (submit_credentials_form url siteName user pass s).sharepoint_url
        = some url)) ∧
    ((siteName = "" → (submit_credentials_form url siteName user pass s).site_name
        = s.site_name) ∧
      (siteName ≠ "" → (submit_credentials_form url siteName user pass s).site_name
        = some siteName)) ∧
    ((user = "" → (submit_credentials_form url siteName user pass s).username
        = s.username) ∧
      (user ≠ "" → (submit_credentials_form url siteName user pass s).username
        = some user)) ∧
    ((pass = "" → (submit_credentials_form url siteName user pass s).password
        = s.password) ∧
      (pass ≠ "" → (submit_credentials_form url siteName user pass s).password
        = some pass)) := by
  unfold submit_credentials_form store_credential
  refine ⟨⟨?_, ?_⟩, ⟨?_, ?_⟩, ⟨?_, ?_⟩, ⟨?_, ?_⟩⟩ <;> intro h <;> simp [h]

/-- C9 witness: a concrete form submission with two empty and two
non-empty fields against stored credentials. -/
theorem C9_credentials_form_witness :
    (submit_credentials_form "" "newsite" "" "newpw" credSample).sharepoint_url
        = credSample.sharepoint_url ∧
      (submit_credentials_form "" "newsite" "" "newpw" credSample).site_name
        = some "newsite" ∧
      (submit_credentials_form "" "newsite" "" "newpw" credSample).username
        = credSample.username ∧
      (submit_credentials_form "" "newsite" "" "newpw" credSample).password
        = some "newpw" :=
  ⟨(C9_credentials_form "" "newsite" "" "newpw" credSample).1.1 rfl,
   (C9_credentials_form "" "newsite" "" "newpw" credSample).2.1.2 (by decide),
   (C9_credentials_form "" "newsite" "" "newpw" credSample).2.2.1.1 rfl,
   (C9_credentials_form "" "newsite" "" "newpw" credSample).2.2.2.2 (by decide)⟩

/-- C10: every message present after a chat turn is either an old
message, a user message without a `sources` key, or an assistant
message carrying a `sources` key: the handler appends only those two
shapes (`app.py:132` and `app.py:156-160`). -/
theorem C10_message_shape
    (get_response : String → List Message → Except String (String × List String))
    (prompt : String) (s : SessionState) (m : Message)
    (hm : m ∈ (chat_handler get_response prompt s).messages) :
    m ∈ s.messages ∨ (m.role = "user" ∧ m.sources = none) ∨
      (m.role = "assistant" ∧ ∃ srcs, m.sources = some srcs) := by
  unfold chat_handler chat_handler_core at hm
  by_cases hc : s.connected = false
  · simp [hc] at hm
    rcases hm with hm | rfl
    · exact Or.inl hm
    · exact Or.inr (Or.inl ⟨rfl, rfl⟩)
  · cases hres : get_response prompt (s.messages ++ [userMessage prompt]) with
    | error err =>
      simp [hc, hres] at hm
      rcases hm with hm | rfl
      · exact Or.inl hm
      · exact Or.inr (Or.inl ⟨rfl, rfl⟩)
    | ok r =>
      obtain ⟨resp, srcs⟩ := r
      simp [hc, hres] at hm
      rcases hm with hm | rfl | rfl
      · exact Or.inl hm
      · exact Or.inr (Or.inl ⟨rfl, rfl⟩)
      · exact Or.inr (Or.inr ⟨rfl, srcs, rfl⟩)

/-- C10 witness: the user message of a concrete successful turn is in
the resulting history and has the user shape. -/
theorem C10_message_shape_witness :
    userMessage "hi" ∈ connectedSample.messages ∨
      ((userMessage "hi").role = "user" ∧ (userMessage "hi").sources = none) ∨
      ((userMessage "hi").role = "assistant" ∧
        ∃ srcs, (userMessage "hi").sources = some srcs) :=
  C10_message_shape okEngine "hi" connectedSample (userMessage "hi") (by decide)
